import Mathlib

/-!
Shallow embedding of the persistence access layer of `bbc-common`
(packages `pkg/models`, `pkg/ydb` and the Telegram formatting helpers),
written to check the repository's specification.

Modelling conventions: Go `int64`/`int` are unbounded `Int` with Go's
conversions (`uint32(..)`, `int32(..)`) made explicit as wrapping
functions; `time.Time` is the instant it denotes (Unix seconds as `Int`,
nanoseconds within the second as `Nat`); a YDB table is a `List` of row
records; statement execution that can fail at the store is modelled by an
`Option String` error injection point, and fallible operations return
`Except DbError`.  Go strings are Lean `String`, except where byte-level
slicing matters (`FormatSubscriptionMessage`), where they are UTF-8 byte
lists.
-/

/-- A Go `time.Time`, reduced to the instant it denotes: Unix seconds
(`sec`) and nanoseconds within that second (`nsec`). -/
structure GoTime where
  sec : Int
  nsec : Nat
deriving DecidableEq

/-- The zero `time.Time` (January 1, year 1, 00:00:00 UTC), whose
`Unix()` value is -62135596800.  Go's `t.IsZero()` is `t = goTimeZero`
in this model. -/
def goTimeZero : GoTime := ⟨-62135596800, 0⟩

/-- Go's `uint32(x)` conversion applied to an `int64` second count:
keeps the low 32 bits (two's-complement truncation). -/
def goUint32 (i : Int) : Nat := (i % 4294967296).toNat

/-- Go's `int32(x)` conversion of an `int`: two's-complement wrap into
`[-2^31, 2^31)`. -/
def goInt32 (i : Int) : Int := (i + 2147483648) % 4294967296 - 2147483648

/-- The SDK's `types.TimestampValueFromTime`: microseconds since the
Unix epoch, as stored in a YDB `Timestamp` column. -/
def timestampFromTime (t : GoTime) : Int :=
  t.sec * 1000000 + Int.ofNat (t.nsec / 1000)

/-- Decoding a `Timestamp` column (microseconds) back into a
`time.Time` instant when a row is scanned. -/
def timeFromMicros (m : Int) : GoTime :=
  ⟨m / 1000000, (m % 1000000).toNat * 1000⟩

/-- The sentinel errors of `pkg/ydb/errors.go` (`ErrUserNotFound`,
`ErrTokensNotFound`, `ErrSubscriptionNotFound`, `ErrMissingConfig`),
plus a propagated store execution error carrying the store's message. -/
inductive DbError where
  | userNotFound
  | tokensNotFound
  | subscriptionNotFound
  | missingConfig
  | execError (msg : String)
deriving DecidableEq

/-! ## Value codec (pkg/ydb/interface.go) -/

/-- A YDB `Optional<Datetime>` column value: an explicit typed null or a
32-bit second count. -/
inductive DatetimeValue where
  | null
  | datetime (seconds : Nat)
deriving DecidableEq

/-- `optionalDatetime` (interface.go): builds an optional `Datetime`
value from a `*uint32`, an explicit typed null when the pointer is nil. -/
def optionalDatetime : Option Nat → DatetimeValue
  | none => DatetimeValue.null
  | some ts => DatetimeValue.datetime ts

/-- The write path for an optional domain timestamp, as in `UpsertUser`
(interface.go): a present `*time.Time` becomes `uint32(t.Unix())` and is
passed through `optionalDatetime`; an absent one stays nil. -/
def encodeOptionalDatetime (t : Option GoTime) : DatetimeValue :=
  optionalDatetime (t.map fun tm => goUint32 tm.sec)

/-- The read path for an optional domain timestamp, as in
`GetUserByTelegramChatID` (interface.go): a scanned nil stays absent, a
scanned `uint32` becomes `time.Unix(int64(v), 0)`. -/
def decodeOptionalDatetime : DatetimeValue → Option GoTime
  | DatetimeValue.null => none
  | DatetimeValue.datetime v => some ⟨Int.ofNat v, 0⟩

/-- A YDB `Optional<Utf8>` column value. -/
inductive TextColumn where
  | null
  | text (s : String)
deriving DecidableEq

/-- `optionalText` (interface.go): builds an optional `Text` value from
a `*string`, an explicit typed null when the pointer is nil. -/
def optionalText : Option String → TextColumn
  | none => TextColumn.null
  | some s => TextColumn.text s

/-- Modelled from the spec: decoding an auxiliary-token column when a
tokens row is scanned.  The scan itself happens inside the external row
scanner (`yscan.ScanRow` / the SDK scanner), whose source is not part of
this repository; the spec states that a null auxiliary-token column
decodes back to the empty string, and a present value to itself. -/
def decodeAuxToken : TextColumn → String
  | TextColumn.null => ""
  | TextColumn.text s => s

/-! ## Users (pkg/ydb/repository.go) -/

/-- A row of the `users` table: `telegram_chat_id`, `status`,
`created_at` (Timestamp, microseconds), and the two optional
authentication timestamps. -/
structure UserRow where
  telegramChatID : Int
  status : String
  createdAt : Int
  lastAuthSuccessAt : Option Int
  lastAuthFailureAt : Option Int
deriving DecidableEq

/-- `models.User`. -/
structure GoUser where
  telegramChatID : Int
  status : String
  createdAt : GoTime
  lastAuthSuccessAt : Option GoTime
  lastAuthFailureAt : Option GoTime
deriving DecidableEq

/-- Scanning one `users` row into a `models.User`. -/
def decodeUserRow (r : UserRow) : GoUser :=
  { telegramChatID := r.telegramChatID
    status := r.status
    createdAt := timeFromMicros r.createdAt
    lastAuthSuccessAt := r.lastAuthSuccessAt.map timeFromMicros
    lastAuthFailureAt := r.lastAuthFailureAt.map timeFromMicros }

/-- `GetUserByTelegramChatID` (repository.go): an execution error is
propagated; otherwise the statement selects the rows matching the chat
id, and zero rows yields `ErrUserNotFound` while the first row is
scanned and returned. -/
def getUserByTelegramChatID (execFail : Option String) (table : List UserRow)
    (chatID : Int) : Except DbError GoUser :=
  match execFail with
  | some e => Except.error (DbError.execError e)
  | none =>
    match (table.filter fun r => decide (r.telegramChatID = chatID)).head? with
    | none => Except.error DbError.userNotFound
    | some r => Except.ok (decodeUserRow r)

/-- `UpdateUserStatus` (repository.go): the single statement
`UPDATE users SET status = $status WHERE telegram_chat_id = $chat_id`,
touching only the `status` column of matching rows. -/
def updateUserStatus (chatID : Int) (status : String) (table : List UserRow) :
    List UserRow :=
  table.map fun r =>
    if r.telegramChatID = chatID then { r with status := status } else r

/-! ## Tokens (pkg/ydb/repository.go) -/

/-- `models.UserTokens`. -/
structure GoUserTokens where
  telegramChatID : Int
  accessToken : String
  refreshToken : String
  userID : String
  datadome : String
  appToken : String
  createdAt : GoTime
  updatedAt : GoTime
deriving DecidableEq

/-- A row of the `user_tokens` table; `datadome` and `app_token` are
`Optional<Utf8>` columns, the timestamps are `Timestamp` columns. -/
structure UserTokensRow where
  telegramChatID : Int
  accessToken : String
  refreshToken : String
  userID : String
  datadome : TextColumn
  appToken : TextColumn
  createdAt : Int
  updatedAt : Int
deriving DecidableEq

/-- `StoreUserTokens` (repository.go): `created_at` is set to `now` only
when it was zero, `updated_at` is always set to `now`; a blank
`datadome`/`app_token` is bound as a typed null, a non-blank one as a
present text value; the full row is then upserted.  Returns the mutated
argument (visible to the caller through the pointer) and the written
row. -/
def storeUserTokens (now : GoTime) (tokens : GoUserTokens) :
    GoUserTokens × UserTokensRow :=
  let tokens' : GoUserTokens :=
    { tokens with
      createdAt := if tokens.createdAt = goTimeZero then now else tokens.createdAt
      updatedAt := now }
  (tokens',
   { telegramChatID := tokens'.telegramChatID
     accessToken := tokens'.accessToken
     refreshToken := tokens'.refreshToken
     userID := tokens'.userID
     datadome := optionalText (if tokens'.datadome ≠ "" then some tokens'.datadome else none)
     appToken := optionalText (if tokens'.appToken ≠ "" then some tokens'.appToken else none)
     createdAt := timestampFromTime tokens'.createdAt
     updatedAt := timestampFromTime tokens'.updatedAt })

/-- Scanning one `user_tokens` row into `models.UserTokens`; the
auxiliary-token columns go through `decodeAuxToken`. -/
def decodeUserTokensRow (r : UserTokensRow) : GoUserTokens :=
  { telegramChatID := r.telegramChatID
    accessToken := r.accessToken
    refreshToken := r.refreshToken
    userID := r.userID
    datadome := decodeAuxToken r.datadome
    appToken := decodeAuxToken r.appToken
    createdAt := timeFromMicros r.createdAt
    updatedAt := timeFromMicros r.updatedAt }

/-- `GetUserTokens` (repository.go): an execution error is propagated;
otherwise zero matching rows yields `ErrTokensNotFound` and the first
matching row is scanned and returned. -/
def getUserTokens (execFail : Option String) (table : List UserTokensRow)
    (chatID : Int) : Except DbError GoUserTokens :=
  match execFail with
  | some e => Except.error (DbError.execError e)
  | none =>
    match (table.filter fun r => decide (r.telegramChatID = chatID)).head? with
    | none => Except.error DbError.tokensNotFound
    | some r => Except.ok (decodeUserTokensRow r)

/-! ## Subscriptions (pkg/ydb/repository.go) -/

/-- `models.SearchSubscription`. -/
structure GoSearchSubscription where
  id : String
  telegramChatID : Int
  fromPlaceID : String
  fromPlaceName : String
  toPlaceID : String
  toPlaceName : String
  departureDate : String
  requestedSeats : Int
  isActive : Bool
  createdAt : GoTime
  lastCheckedAt : Option GoTime
deriving DecidableEq

/-- A row of the `search_subscriptions` table (the columns written by
`CreateSearchSubscription`; `requested_seats` is an `Int32` column,
`created_at` a `Timestamp` column). -/
structure SearchSubscriptionRow where
  id : String
  telegramChatID : Int
  fromPlaceID : String
  fromPlaceName : String
  toPlaceID : String
  toPlaceName : String
  departureDate : String
  requestedSeats : Int
  isActive : Bool
  createdAt : Int
deriving DecidableEq

/-- `CreateSearchSubscription` (repository.go): when the caller's id is
empty a fresh `uuid.New().String()` is used (`freshID`, never empty);
`created_at` is set to `time.Now()` and `is_active` to `true`
unconditionally; the resulting values are bound and inserted.  Returns
the mutated argument (visible to the caller through the pointer) and the
inserted row. -/
def createSearchSubscription (now : GoTime) (freshID : String)
    (sub : GoSearchSubscription) :
    GoSearchSubscription × SearchSubscriptionRow :=
  let sub' : GoSearchSubscription :=
    { sub with
      id := if sub.id = "" then freshID else sub.id
      createdAt := now
      isActive := true }
  (sub',
   { id := sub'.id
     telegramChatID := sub'.telegramChatID
     fromPlaceID := sub'.fromPlaceID
     fromPlaceName := sub'.fromPlaceName
     toPlaceID := sub'.toPlaceID
     toPlaceName := sub'.toPlaceName
     departureDate := sub'.departureDate
     requestedSeats := goInt32 sub'.requestedSeats
     isActive := sub'.isActive
     createdAt := timestampFromTime sub'.createdAt })

/-! ## Notifications (pkg/ydb/repository.go) -/

/-- `models.Notification`. -/
structure GoNotification where
  id : String
  telegramChatID : Int
  subscriptionID : String
  tripID : String
  telegramMessageID : Int
  status : String
  createdAt : GoTime
deriving DecidableEq

/-- A row of the `notifications` table (`telegram_message_id` is an
`Int32` column, `created_at` a `Timestamp` column). -/
structure NotificationRow where
  id : String
  telegramChatID : Int
  subscriptionID : String
  tripID : String
  telegramMessageID : Int
  status : String
  createdAt : Int
deriving DecidableEq

/-- Binding a `models.Notification` into the columns inserted by
`CreateNotification`. -/
def encodeNotificationRow (n : GoNotification) : NotificationRow :=
  { id := n.id
    telegramChatID := n.telegramChatID
    subscriptionID := n.subscriptionID
    tripID := n.tripID
    telegramMessageID := goInt32 n.telegramMessageID
    status := n.status
    createdAt := timestampFromTime n.createdAt }

/-- Scanning one `notifications` row into `models.Notification`. -/
def decodeNotificationRow (r : NotificationRow) : GoNotification :=
  { id := r.id
    telegramChatID := r.telegramChatID
    subscriptionID := r.subscriptionID
    tripID := r.tripID
    telegramMessageID := r.telegramMessageID
    status := r.status
    createdAt := timeFromMicros r.createdAt }

/-- The `WHERE` clause of `GetNotificationByTrip`: the deduplication
triple (chat identity, subscription id, trip id). -/
def tripMatches (chatID : Int) (subID tripID : String) (r : NotificationRow) : Bool :=
  decide (r.telegramChatID = chatID ∧ r.subscriptionID = subID ∧ r.tripID = tripID)

/-- `CreateNotification` (repository.go): a fresh uuid is used when the
caller's id is empty, `created_at` is set to `time.Now()` and `status`
to the fixed initial `"sent"`; the row is then inserted with `INSERT`,
which fails at the store when the primary key (the generated unique id)
already exists. -/
def createNotification (now : GoTime) (freshID : String) (n : GoNotification)
    (table : List NotificationRow) :
    Except DbError (List NotificationRow × GoNotification) :=
  let n' : GoNotification :=
    { n with
      id := if n.id = "" then freshID else n.id
      createdAt := now
      status := "sent" }
  let row := encodeNotificationRow n'
  if table.any fun r => decide (r.id = row.id) then
    Except.error (DbError.execError "PRECONDITION_FAILED: key already exists")
  else
    Except.ok (table ++ [row], n')

/-- `GetNotificationByTrip` (repository.go): an execution error is
propagated; otherwise zero matching rows is a successful empty result
(`nil, nil` in Go) and the first matching row is scanned and returned. -/
def getNotificationByTrip (execFail : Option String) (table : List NotificationRow)
    (chatID : Int) (subID tripID : String) : Except DbError (Option GoNotification) :=
  match execFail with
  | some e => Except.error (DbError.execError e)
  | none =>
    Except.ok (((table.filter (tripMatches chatID subID tripID)).head?).map
      decodeNotificationRow)

/-! ## Connection provider (pkg/ydb, singleton `GetConnection`) -/

/-- The two environment settings read at first use:
`YDB_ENDPOINT` and `YDB_DATABASE`. -/
structure ConnConfig where
  endpoint : String
  database : String
deriving DecidableEq

/-- The cached outcome of the once-only initialization: an open driver
(remembering the endpoint and database it was opened with), a failure of
`ydb.Open`, or `ErrMissingConfig`. -/
inductive ConnResult where
  | conn (endpoint database : String)
  | openFailed (e : String)
  | missingConfig
deriving DecidableEq

/-- The body of the `once.Do` closure in `GetConnection`: when either
required setting is unset the outcome is `ErrMissingConfig`, otherwise
the outcome of `ydb.Open` (modelled by the `openErr` injection point). -/
def initConnection (cfg : ConnConfig) (openErr : Option String) : ConnResult :=
  if cfg.endpoint = "" ∨ cfg.database = "" then ConnResult.missingConfig
  else
    match openErr with
    | some e => ConnResult.openFailed e
    | none => ConnResult.conn cfg.endpoint cfg.database

/-- `GetConnection`: `cached` is the `sync.Once`-protected state
(`db`/`initErr`).  On first use the initializer runs and its outcome is
cached; on every later call the cached outcome is returned as-is — the
configuration is not read again and initialization is not retried. -/
def getConnection (cfg : ConnConfig) (openErr : Option String)
    (cached : Option ConnResult) : ConnResult × Option ConnResult :=
  match cached with
  | some r => (r, some r)
  | none =>
    let r := initConnection cfg openErr
    (r, some r)

/-! ## Transactional executor (pkg/ydb/interface.go, `DoTx`) -/

/-- The observable calls made by `DoTx` on a session/transaction. -/
inductive TxEvent where
  | beginTx
  | invokeFn
  | commitTx
  | rollbackTx
deriving DecidableEq

/-- How the caller-supplied unit of work exits: normally, with an
error, or by panicking. -/
inductive FnOutcome where
  | ok
  | err (e : String)
  | panics
deriving DecidableEq

/-- How `DoTx` itself exits. -/
inductive TxResult where
  | success
  | failure (e : String)
  | panicked
deriving DecidableEq

/-- `DoTx` (interface.go): begin the serializable read-write
transaction (the stray empty `Execute` before it has its error
discarded and is omitted here), `defer tx.Rollback(ctx)`, invoke the
unit of work, return its error if any, else commit.  Go's `defer` runs
the rollback on every exit after a successful begin — after an error
return, after a panic, and (as a no-op) after the commit itself.
Returns the trace of calls and the exit. -/
def doTx (beginErr : Option String) (fnOut : FnOutcome) (commitErr : Option String) :
    List TxEvent × TxResult :=
  match beginErr with
  | some e => ([], TxResult.failure e)
  | none =>
    match fnOut with
    | FnOutcome.ok =>
      match commitErr with
      | none =>
        ([TxEvent.beginTx, TxEvent.invokeFn, TxEvent.commitTx, TxEvent.rollbackTx],
         TxResult.success)
      | some e =>
        ([TxEvent.beginTx, TxEvent.invokeFn, TxEvent.commitTx, TxEvent.rollbackTx],
         TxResult.failure e)
    | FnOutcome.err e =>
      ([TxEvent.beginTx, TxEvent.invokeFn, TxEvent.rollbackTx], TxResult.failure e)
    | FnOutcome.panics =>
      ([TxEvent.beginTx, TxEvent.invokeFn, TxEvent.rollbackTx], TxResult.panicked)

/-! ## Telegram formatting (pkg/telegram, `FormatSubscriptionMessage`) -/

/-- UTF-8 encoding of one character, byte by byte, as Go strings store
their text. -/
def utf8Bytes (c : Char) : List Nat :=
  let n := c.toNat
  if n < 128 then [n]
  else if n < 2048 then [192 + n / 64, 128 + n % 64]
  else if n < 65536 then [224 + n / 4096, 128 + (n / 64) % 64, 128 + n % 64]
  else [240 + n / 262144, 128 + (n / 4096) % 64, 128 + (n / 64) % 64, 128 + n % 64]

/-- The UTF-8 bytes of a string literal, as Go sees a `string`. -/
def goBytes (s : String) : List Nat :=
  s.data.foldr (fun c acc => utf8Bytes c ++ acc) []

/-- `FormatSubscriptionMessage` (pkg/telegram):
`fmt.Sprintf("*Subscription #%s*\n%s → %s\nDate: %s\nStatus: %s", id[:8], ...)`.
Arguments are Go strings as byte lists.  The slice expression `id[:8]`
panics with an out-of-range error when `id` has fewer than 8 bytes;
`none` models that panic, `some` the returned string. -/
def formatSubscriptionMessage (id fro dest date : List Nat) (isActive : Bool) :
    Option (List Nat) :=
  let status := if isActive then goBytes "✅ Active" else goBytes "❌ Inactive"
  if 8 ≤ id.length then
    some (goBytes "*Subscription #" ++ id.take 8 ++ goBytes "*\n" ++ fro ++
      goBytes " → " ++ dest ++ goBytes "\nDate: " ++ date ++
      goBytes "\nStatus: " ++ status)
  else
    none

/-! ## Claims -/

/-- C2: for every tokens argument, a successful `StoreUserTokens` writes
a full row whose `updated_at` is the current time (always refreshed),
and whose `created_at` is the caller-supplied `created_at` when that was
already set and the current time when it was zero. -/
theorem storeUserTokens_timestamps (now : GoTime) (tokens : GoUserTokens) :
    (storeUserTokens now tokens).2 =
      { telegramChatID := tokens.telegramChatID
        accessToken := tokens.accessToken
        refreshToken := tokens.refreshToken
        userID := tokens.userID
        datadome := optionalText (if tokens.datadome ≠ "" then some tokens.datadome else none)
        appToken := optionalText (if tokens.appToken ≠ "" then some tokens.appToken else none)
        createdAt := timestampFromTime
          (if tokens.createdAt = goTimeZero then now else tokens.createdAt)
        updatedAt := timestampFromTime now } := rfl

/-- C5 counterexample: the optional-timestamp codec does not round-trip
every present domain timestamp — a pre-epoch time such as Unix second -1
is truncated by the `uint32` conversion and decodes to a different
(year-2106) second. -/
theorem optionalDatetime_roundtrip_counterexample :
    decodeOptionalDatetime (encodeOptionalDatetime (some (⟨-1, 0⟩ : GoTime))) ≠
      some (⟨-1, 0⟩ : GoTime) := by
  decide

/-- C5 (amended): an absent timestamp encodes as an explicit typed null
and decodes back to absent, and a present timestamp whose Unix second
count lies in the `uint32` range `[0, 2^32)` encodes as a non-null
datetime value and decodes back to the same second-precision time
(sub-second components are dropped). -/
theorem optionalDatetime_roundtrip_in_range (tm : GoTime)
    (h0 : 0 ≤ tm.sec) (h1 : tm.sec < 4294967296) :
    encodeOptionalDatetime none = DatetimeValue.null ∧
    decodeOptionalDatetime (encodeOptionalDatetime none) = none ∧
    (∃ v, encodeOptionalDatetime (some tm) = DatetimeValue.datetime v) ∧
    decodeOptionalDatetime (encodeOptionalDatetime (some tm)) =
      some (⟨tm.sec, 0⟩ : GoTime) := by
  refine ⟨rfl, rfl, ⟨goUint32 tm.sec, rfl⟩, ?_⟩
  have h : decodeOptionalDatetime (encodeOptionalDatetime (some tm)) =
      some (⟨Int.ofNat (goUint32 tm.sec), 0⟩ : GoTime) := rfl
  rw [h]
  simp only [Option.some.injEq, GoTime.mk.injEq, and_true, goUint32,
    Int.ofNat_eq_natCast]
  omega

/-- Witness for C5 (amended) at a concrete present timestamp with a
sub-second component. -/
theorem optionalDatetime_roundtrip_in_range_witness :
    decodeOptionalDatetime (encodeOptionalDatetime
        (some (⟨1700000000, 500000000⟩ : GoTime))) =
      some (⟨1700000000, 0⟩ : GoTime) :=
  (optionalDatetime_roundtrip_in_range ⟨1700000000, 500000000⟩
    (by decide) (by decide)).2.2.2

/-- C7: for every unit of work run through `DoTx` whose transaction
begins successfully, the transaction is begun, the unit of work is
invoked, commit happens on success, and rollback executes on every exit
path on which commit does not happen — including the unit of work
returning an error and the unit of work panicking. -/
theorem doTx_rollback_on_all_paths (fnOut : FnOutcome) (commitErr : Option String) :
    TxEvent.beginTx ∈ (doTx none fnOut commitErr).1 ∧
    TxEvent.invokeFn ∈ (doTx none fnOut commitErr).1 ∧
    (fnOut = FnOutcome.ok → TxEvent.commitTx ∈ (doTx none fnOut commitErr).1) ∧
    (∀ e, fnOut = FnOutcome.err e →
      TxEvent.rollbackTx ∈ (doTx none fnOut commitErr).1 ∧
      TxEvent.commitTx ∉ (doTx none fnOut commitErr).1 ∧
      (doTx none fnOut commitErr).2 = TxResult.failure e) ∧
    (fnOut = FnOutcome.panics →
      TxEvent.rollbackTx ∈ (doTx none fnOut commitErr).1 ∧
      TxEvent.commitTx ∉ (doTx none fnOut commitErr).1 ∧
      (doTx none fnOut commitErr).2 = TxResult.panicked) ∧
    TxEvent.rollbackTx ∈ (doTx none fnOut commitErr).1 := by
  cases fnOut <;> cases commitErr <;> simp [doTx]

/-- Witness for C7: the unit of work returning an error rolls back. -/
theorem doTx_rollback_on_all_paths_witness :
    TxEvent.rollbackTx ∈ (doTx none (FnOutcome.err "boom") none).1 :=
  ((doTx_rollback_on_all_paths (FnOutcome.err "boom") none).2.2.2.1 "boom" rfl).1

/-- C8: `GetConnection` fails with the configuration error exactly when
the required endpoint or database setting is unset at first use, the
first-use outcome is cached, and every later call returns the cached
outcome unchanged no matter what the configuration or the store would
say now. -/
theorem getConnection_config_failure_cached (cfg cfg' : ConnConfig)
    (openErr openErr' : Option String) (r : ConnResult) :
    ((getConnection cfg openErr none).1 = ConnResult.missingConfig ↔
      (cfg.endpoint = "" ∨ cfg.database = "")) ∧
    (getConnection cfg openErr none).2 = some (getConnection cfg openErr none).1 ∧
    getConnection cfg' openErr' (some r) = (r, some r) := by
  refine ⟨?_, rfl, rfl⟩
  by_cases h : cfg.endpoint = "" ∨ cfg.database = ""
  · simp [getConnection, initConnection, h]
  · cases openErr <;> simp [getConnection, initConnection, h]

/-- Witness for C8: a missing endpoint fails with the configuration
error on first use, and the failure is then served from the cache. -/
theorem getConnection_config_failure_cached_witness :
    (getConnection ⟨"", "/db"⟩ none none).1 = ConnResult.missingConfig ∧
    getConnection ⟨"grpcs://x", "/db"⟩ none (some ConnResult.missingConfig) =
      (ConnResult.missingConfig, some ConnResult.missingConfig) :=
  ⟨(getConnection_config_failure_cached ⟨"", "/db"⟩ ⟨"grpcs://x", "/db"⟩
      none none ConnResult.missingConfig).1.mpr (Or.inl rfl),
   (getConnection_config_failure_cached ⟨"", "/db"⟩ ⟨"grpcs://x", "/db"⟩
      none none ConnResult.missingConfig).2.2⟩

/-- C10: `FormatSubscriptionMessage` is total exactly when its id
argument has at least 8 bytes; for a shorter id the slice `id[:8]`
panics with an out-of-range error. -/
theorem formatSubscriptionMessage_totality (id fro dest date : List Nat)
    (isActive : Bool) :
    (formatSubscriptionMessage id fro dest date isActive).isSome = true ↔
      8 ≤ id.length := by
  by_cases h : 8 ≤ id.length <;> simp [formatSubscriptionMessage, h]

/-- Witness for C10 at a concrete 8-byte id. -/
theorem formatSubscriptionMessage_totality_witness :
    (formatSubscriptionMessage (goBytes "abcdef12") (goBytes "Paris")
      (goBytes "Lyon") (goBytes "2024-06-01") true).isSome = true :=
  (formatSubscriptionMessage_totality (goBytes "abcdef12") (goBytes "Paris")
    (goBytes "Lyon") (goBytes "2024-06-01") true).mpr (by decide)

/-- C1: for every subscription argument, a successful
`CreateSearchSubscription` stores, and leaves visible to the caller, a
subscription whose id is non-empty (the fresh uuid when the caller's id
was empty), whose `is_active` is true and whose `created_at` is the
current time, regardless of the values the caller supplied. -/
theorem createSearchSubscription_authoritative (now : GoTime) (freshID : String)
    (sub : GoSearchSubscription) (hfresh : freshID ≠ "") :
    (createSearchSubscription now freshID sub).1.id ≠ "" ∧
    (createSearchSubscription now freshID sub).2.id ≠ "" ∧
    (createSearchSubscription now freshID sub).1.isActive = true ∧
    (createSearchSubscription now freshID sub).2.isActive = true ∧
    (createSearchSubscription now freshID sub).1.createdAt = now ∧
    (createSearchSubscription now freshID sub).2.createdAt = timestampFromTime now ∧
    (sub.id = "" → (createSearchSubscription now freshID sub).1.id = freshID) ∧
    (sub.id ≠ "" → (createSearchSubscription now freshID sub).1.id = sub.id) := by
  by_cases h : sub.id = "" <;>
    simp [createSearchSubscription, h, hfresh]

/-- Witness for C1: a caller-supplied empty id and `is_active = false`
still come back active with the fresh non-empty id. -/
theorem createSearchSubscription_authoritative_witness :
    (createSearchSubscription ⟨100, 0⟩ "b77f47a1-3f89-4a27-9f2e-000000000001"
      ⟨"", 12345, "p1", "Paris", "p2", "Lyon", "2024-06-01", 2, false,
        goTimeZero, none⟩).2.isActive = true :=
  (createSearchSubscription_authoritative ⟨100, 0⟩
    "b77f47a1-3f89-4a27-9f2e-000000000001"
    ⟨"", 12345, "p1", "Paris", "p2", "Lyon", "2024-06-01", 2, false,
      goTimeZero, none⟩ (by decide)).2.2.2.1

/-- C6: a tokens value whose auxiliary token field is the empty string
is written as an explicit null column by `StoreUserTokens`, and a null
auxiliary-token column decodes back to the empty string in the domain
value returned by `GetUserTokens`. -/
theorem auxToken_blank_stored_null (now : GoTime) (tokens : GoUserTokens) :
    (tokens.datadome = "" →
      (storeUserTokens now tokens).2.datadome = TextColumn.null) ∧
    (tokens.appToken = "" →
      (storeUserTokens now tokens).2.appToken = TextColumn.null) ∧
    (∀ r : UserTokensRow, r.datadome = TextColumn.null →
      (decodeUserTokensRow r).datadome = "") ∧
    (∀ r : UserTokensRow, r.appToken = TextColumn.null →
      (decodeUserTokensRow r).appToken = "") := by
  refine ⟨fun h => ?_, fun h => ?_, fun r h => ?_, fun r h => ?_⟩ <;>
    simp [storeUserTokens, decodeUserTokensRow, decodeAuxToken, optionalText, h]

/-- Witness for C6 at a concrete tokens value with blank auxiliary
tokens and a concrete row with null auxiliary columns. -/
theorem auxToken_blank_stored_null_witness :
    (storeUserTokens ⟨100, 0⟩
      ⟨12345, "acc", "ref", "uid", "", "", goTimeZero, goTimeZero⟩).2.datadome =
      TextColumn.null ∧
    (decodeUserTokensRow
      ⟨12345, "acc", "ref", "uid", TextColumn.null, TextColumn.null, 0, 0⟩).datadome =
      "" :=
  ⟨(auxToken_blank_stored_null ⟨100, 0⟩
      ⟨12345, "acc", "ref", "uid", "", "", goTimeZero, goTimeZero⟩).1 rfl,
   (auxToken_blank_stored_null ⟨100, 0⟩
      ⟨12345, "acc", "ref", "uid", "", "", goTimeZero, goTimeZero⟩).2.2.1
     ⟨12345, "acc", "ref", "uid", TextColumn.null, TextColumn.null, 0, 0⟩ rfl⟩

/-- C4: the point lookups `GetUserByTelegramChatID` and `GetUserTokens`
return their entity-specific not-found error exactly on the zero-rows
outcome, and an execution error from the store is propagated to the
caller instead. -/
theorem pointLookup_notFound_iff_zero_rows (qu qt : Option String)
    (tu : List UserRow) (tt : List UserTokensRow) (cu ct : Int) :
    (getUserByTelegramChatID qu tu cu = Except.error DbError.userNotFound ↔
      qu = none ∧ tu.filter (fun r => decide (r.telegramChatID = cu)) = []) ∧
    (getUserTokens qt tt ct = Except.error DbError.tokensNotFound ↔
      qt = none ∧ tt.filter (fun r => decide (r.telegramChatID = ct)) = []) ∧
    (∀ e, qu = some e → getUserByTelegramChatID qu tu cu =
      Except.error (DbError.execError e)) ∧
    (∀ e, qt = some e → getUserTokens qt tt ct =
      Except.error (DbError.execError e)) := by
  refine ⟨?_, ?_, fun e he => by subst he; rfl, fun e he => by subst he; rfl⟩
  · cases qu with
    | some e => simp [getUserByTelegramChatID]
    | none =>
      simp only [getUserByTelegramChatID, true_and]
      cases h : (tu.filter fun r => decide (r.telegramChatID = cu)).head? with
      | none =>
        simp [List.head?_eq_none_iff.mp h]
      | some r =>
        constructor
        · intro hc
          exact Except.noConfusion hc
        · intro hcon
          rw [hcon] at h
          exact Option.noConfusion h
  · cases qt with
    | some e => simp [getUserTokens]
    | none =>
      simp only [getUserTokens, true_and]
      cases h : (tt.filter fun r => decide (r.telegramChatID = ct)).head? with
      | none =>
        simp [List.head?_eq_none_iff.mp h]
      | some r =>
        constructor
        · intro hc
          exact Except.noConfusion hc
        · intro hcon
          rw [hcon] at h
          exact Option.noConfusion h

/-- Witness for C4: an injected execution error is propagated for the
user lookup, and zero rows yields the tokens-specific not-found error. -/
theorem pointLookup_notFound_iff_zero_rows_witness :
    getUserByTelegramChatID (some "network down") [] 12345 =
      Except.error (DbError.execError "network down") ∧
    getUserTokens none [] 12345 = Except.error DbError.tokensNotFound :=
  ⟨(pointLookup_notFound_iff_zero_rows (some "network down") none [] [] 12345
      12345).2.2.1 "network down" rfl,
   ((pointLookup_notFound_iff_zero_rows (some "network down") none [] [] 12345
      12345).2.1).mpr ⟨rfl, rfl⟩⟩

/-- How `UpdateUserStatus` commutes with the chat-id row selection: the
updated table's rows matching any chat id are the original matching rows
with the conditional status replacement applied — the update never
changes the chat identity a row is selected by. -/
theorem filter_updateUserStatus (c other : Int) (s : String) (table : List UserRow) :
    (updateUserStatus c s table).filter (fun r => decide (r.telegramChatID = other)) =
      (table.filter (fun r => decide (r.telegramChatID = other))).map
        (fun r => if r.telegramChatID = c then { r with status := s } else r) := by
  unfold updateUserStatus
  have hp : ((fun r : UserRow => decide (r.telegramChatID = other)) ∘ fun r =>
      if r.telegramChatID = c then { r with status := s } else r) =
      fun r : UserRow => decide (r.telegramChatID = other) := by
    funext r
    by_cases hc : r.telegramChatID = c <;> simp [Function.comp, hc]
  rw [List.filter_map, hp]

/-- C9: `UpdateUserStatus` changes only the status column of the user's
row — `created_at`, both authentication timestamps and the chat identity
are unchanged, as observed by a subsequent `GetUserByTelegramChatID`;
rows of other chat identities are untouched entirely. -/
theorem updateUserStatus_frame (execFail : Option String) (table : List UserRow)
    (c other : Int) (s : String) :
    getUserByTelegramChatID execFail (updateUserStatus c s table) c =
      Except.map (fun u => { u with status := s })
        (getUserByTelegramChatID execFail table c) ∧
    (other ≠ c →
      getUserByTelegramChatID execFail (updateUserStatus c s table) other =
        getUserByTelegramChatID execFail table other) := by
  constructor
  · cases execFail with
    | some e => rfl
    | none =>
      simp only [getUserByTelegramChatID, filter_updateUserStatus c c s table,
        List.head?_map]
      cases hh : (table.filter fun r => decide (r.telegramChatID = c)).head? with
      | none => rfl
      | some r =>
        have hmem : r ∈ table.filter (fun r => decide (r.telegramChatID = c)) :=
          List.mem_of_mem_head? (by rw [hh]; exact rfl)
        have hrc := List.of_mem_filter hmem
        simp only [decide_eq_true_eq] at hrc
        simp [hrc, decodeUserRow, Except.map]
  · intro hoc
    cases execFail with
    | some e => rfl
    | none =>
      simp only [getUserByTelegramChatID, filter_updateUserStatus c other s table,
        List.head?_map]
      cases hh : (table.filter fun r => decide (r.telegramChatID = other)).head? with
      | none => rfl
      | some r =>
        have hmem : r ∈ table.filter (fun r => decide (r.telegramChatID = other)) :=
          List.mem_of_mem_head? (by rw [hh]; exact rfl)
        have hro := List.of_mem_filter hmem
        simp only [decide_eq_true_eq] at hro
        have hrc : ¬r.telegramChatID = c := fun hcc => hoc (hro.symm.trans hcc)
        simp [hrc]

/-- Witness for C9: updating chat 7 leaves the lookup of chat 8
unchanged. -/
theorem updateUserStatus_frame_witness :
    getUserByTelegramChatID none
        (updateUserStatus 7 "inactive" [⟨7, "active", 0, none, none⟩]) 8 =
      getUserByTelegramChatID none [⟨7, "active", 0, none, none⟩] 8 :=
  (updateUserStatus_frame none [⟨7, "active", 0, none, none⟩] 7 8 "inactive").2
    (by decide)

/-- C3: for a deduplication triple with no matching notification row,
`GetNotificationByTrip` returns a successful absent result (`nil, nil`),
not an error; and after a single successful `CreateNotification` with
that triple it returns the matching stored notification record. -/
theorem notificationByTrip_dedup (table : List NotificationRow) (c : Int)
    (s tr : String) (now : GoTime) (freshID : String) (n : GoNotification)
    (hc : n.telegramChatID = c) (hs : n.subscriptionID = s) (htr : n.tripID = tr)
    (hnone : table.filter (tripMatches c s tr) = []) :
    getNotificationByTrip none table c s tr = Except.ok none ∧
    ∀ res, createNotification now freshID n table = Except.ok res →
      getNotificationByTrip none res.1 c s tr =
        Except.ok (some (decodeNotificationRow (encodeNotificationRow res.2))) ∧
      res.2.telegramChatID = c ∧ res.2.subscriptionID = s ∧ res.2.tripID = tr := by
  subst hc; subst hs; subst htr
  constructor
  · simp [getNotificationByTrip, hnone]
  · intro res hok
    simp only [createNotification] at hok
    split at hok <;> split at hok
    · exact Except.noConfusion hok
    · injection hok with h1
      subst h1
      refine ⟨?_, rfl, rfl, rfl⟩
      simp [getNotificationByTrip, List.filter_append, hnone, tripMatches,
        encodeNotificationRow]
    · exact Except.noConfusion hok
    · injection hok with h1
      subst h1
      refine ⟨?_, rfl, rfl, rfl⟩
      simp [getNotificationByTrip, List.filter_append, hnone, tripMatches,
        encodeNotificationRow]

/-- Witness for C3: the empty table yields a successful absent result,
and after one `CreateNotification` with the triple the stored record is
returned. -/
theorem notificationByTrip_dedup_witness :
    getNotificationByTrip none ([] : List NotificationRow) 12345 "sub-1" "trip-99" =
      Except.ok none ∧
    getNotificationByTrip none
        [encodeNotificationRow
          ⟨"fresh-uuid", 12345, "sub-1", "trip-99", 7, "sent", ⟨100, 0⟩⟩]
        12345 "sub-1" "trip-99" =
      Except.ok (some (decodeNotificationRow (encodeNotificationRow
        ⟨"fresh-uuid", 12345, "sub-1", "trip-99", 7, "sent", ⟨100, 0⟩⟩))) :=
  ⟨(notificationByTrip_dedup [] 12345 "sub-1" "trip-99" ⟨100, 0⟩ "fresh-uuid"
      ⟨"", 12345, "sub-1", "trip-99", 7, "", goTimeZero⟩ rfl rfl rfl rfl).1,
   ((notificationByTrip_dedup [] 12345 "sub-1" "trip-99" ⟨100, 0⟩ "fresh-uuid"
      ⟨"", 12345, "sub-1", "trip-99", 7, "", goTimeZero⟩ rfl rfl rfl rfl).2
     ([encodeNotificationRow
        ⟨"fresh-uuid", 12345, "sub-1", "trip-99", 7, "sent", ⟨100, 0⟩⟩],
      ⟨"fresh-uuid", 12345, "sub-1", "trip-99", 7, "sent", ⟨100, 0⟩⟩) rfl).1⟩
